import Mathlib

/-!
Shallow embedding of the Cassandra-backed messenger data-access layer
(`app/models/cassandra_models.py`) together with the table semantics
established by `scripts/setup_db.py`.

Modelling conventions:
* each Cassandra table is a Lean list of row structures; primary-key
  semantics (upsert on insert) are modelled by key-aware insertion;
* the `indexes` counter table is an association list from counter name to
  value; a counter `UPDATE ... SET index_value = index_value + 1` creates
  the row on first use (Cassandra counters start from 0);
* the `messages` table has clustering order `(timestamp DESC, message_id
  ASC)` (see `setup_db.py`), so a `SELECT ... WHERE conversation_id = c`
  returns the partition's rows in that order; the model applies this
  ordering in the select;
* `datetime.now()` is modelled by an explicit clock argument `now : Int`;
* the async store client `execute` is pure state passing: reads are
  functions of the `DB` value, writes produce a new `DB` value.
-/

/-- A row of the `messages` table. -/
structure MessageRow where
  message_id : Int
  conversation_id : Int
  sender_id : Int
  receiver_id : Int
  content : String
  timestamp : Int
deriving DecidableEq

/-- A row of the `user_conversations` table (the ConversationSummary),
primary key `conversation_id`. -/
structure SummaryRow where
  conversation_id : Int
  sender_id : Int
  receiver_id : Int
  last_timestamp : Int
  last_message : String
deriving DecidableEq

/-- A row of the `conversations` table (the ConversationIdentity),
primary key `(conversation_id, sender_id)`. -/
structure IdentityRow where
  conversation_id : Int
  sender_id : Int
  receiver_id : Int
  last_timestamp : Int
deriving DecidableEq

/-- The whole keyspace: the four tables created by `setup_db.py`. -/
structure DB where
  indexes : List (String × Int)
  messages : List MessageRow
  user_conversations : List SummaryRow
  conversations : List IdentityRow
deriving DecidableEq

/-- The empty keyspace, as left by `setup_db.py` right after table creation. -/
def emptyDB : DB := ⟨[], [], [], []⟩

/-- `SELECT index_value FROM indexes WHERE index_name = n`:
the counter row's value when present. -/
def lookupIndex : List (String × Int) → String → Option Int
  | [], _ => none
  | p :: rest, n => if p.1 = n then some p.2 else lookupIndex rest n

/-- `UPDATE indexes SET index_value = index_value + 1 WHERE index_name = n`:
Cassandra counter increment; the row is created (from 0) on first use. -/
def bumpIndex : List (String × Int) → String → List (String × Int)
  | [], n => [(n, 1)]
  | p :: rest, n => if p.1 = n then (p.1, p.2 + 1) :: rest else p :: bumpIndex rest n

/-- `INSERT INTO messages ...`: upsert on the primary key
`(conversation_id, timestamp, message_id)`. -/
def upsertMessage : List MessageRow → MessageRow → List MessageRow
  | [], m => [m]
  | r :: rest, m =>
    if r.conversation_id = m.conversation_id ∧ r.timestamp = m.timestamp ∧
        r.message_id = m.message_id then
      m :: rest
    else r :: upsertMessage rest m

/-- `INSERT INTO user_conversations ...`: upsert on the primary key
`conversation_id`. -/
def upsertSummary : List SummaryRow → SummaryRow → List SummaryRow
  | [], m => [m]
  | r :: rest, m =>
    if r.conversation_id = m.conversation_id then m :: rest
    else r :: upsertSummary rest m

/-- `UPDATE user_conversations SET last_timestamp = %s, last_message = %s,
sender_id = %s, receiver_id = %s WHERE conversation_id = %s`. -/
def updateSummary (t : List SummaryRow) (c ts : Int) (msg : String) (s r : Int) :
    List SummaryRow :=
  t.map fun row =>
    if row.conversation_id = c then
      { row with last_timestamp := ts, last_message := msg,
                 sender_id := s, receiver_id := r }
    else row

/-- `INSERT INTO conversations ...`: upsert on the primary key
`(conversation_id, sender_id)`. -/
def upsertIdentity : List IdentityRow → IdentityRow → List IdentityRow
  | [], m => [m]
  | r :: rest, m =>
    if r.conversation_id = m.conversation_id ∧ r.sender_id = m.sender_id then m :: rest
    else r :: upsertIdentity rest m

/-- Python list slicing `l[a:b]` (step 1) with full negative-index
semantics: a negative bound counts from the end, bounds are clamped to
`[0, len(l)]`, and an empty range yields `[]`. -/
def pySlice {α : Type} (l : List α) (a b : Int) : List α :=
  let n : Int := l.length
  let start := if a < 0 then max (n + a) 0 else min a n
  let stop := if b < 0 then max (n + b) 0 else min b n
  (l.drop start.toNat).take (stop - start).toNat

/-- The clustering order of the `messages` partition:
`timestamp DESC, message_id ASC` (see `setup_db.py`). -/
def msgLE (a b : MessageRow) : Prop :=
  b.timestamp < a.timestamp ∨ (b.timestamp = a.timestamp ∧ a.message_id ≤ b.message_id)

instance : DecidableRel msgLE := fun a b =>
  inferInstanceAs (Decidable (_ ∨ _ ∧ _))

instance : IsTotal MessageRow msgLE :=
  ⟨by intro a b; unfold msgLE; omega⟩

instance : IsTrans MessageRow msgLE :=
  ⟨by intro a b c; unfold msgLE; omega⟩

/-- The ascending-`last_timestamp` order used by the (discarded)
`sorted(..., key=lambda x: x["last_timestamp"])` call. -/
def convLE (a b : SummaryRow) : Prop := a.last_timestamp ≤ b.last_timestamp

instance : DecidableRel convLE := fun a b =>
  inferInstanceAs (Decidable (_ ≤ _))

/-- The record returned by `create_message` (keys `message_id`, `sender_id`,
`receiver_id`, `content`, `timestamp`, `conversation_id`). -/
structure MessageRecord where
  message_id : Int
  sender_id : Int
  receiver_id : Int
  content : String
  timestamp : Int
  conversation_id : Int
deriving DecidableEq

/-- The per-message record produced by the two message-listing reads
(keys `id`, `sender_id`, `receiver_id`, `content`, `created_at`,
`conversation_id`). -/
structure MessageListItem where
  id : Int
  sender_id : Int
  receiver_id : Int
  content : String
  created_at : Int
  conversation_id : Int
deriving DecidableEq

/-- The record returned by `get_conversation` and by
`create_or_get_conversation` (keys `conversation_id`, `sender_id`,
`receiver_id`, `last_message_at`, `last_message_content`). -/
structure ConversationRecord where
  conversation_id : Int
  sender_id : Int
  receiver_id : Int
  last_message_at : Int
  last_message_content : Option String
deriving DecidableEq

/-- The record returned by `create_conversation` (keys `conversation_id`,
`sender_id`, `receiver_id`, `created_at`). -/
structure CreatedConversation where
  conversation_id : Int
  sender_id : Int
  receiver_id : Int
  created_at : Int
deriving DecidableEq

/-- The per-conversation record produced by `get_user_conversations`
(keys `id`, `user1_id`, `user2_id`, `last_message_at`,
`last_message_content`). -/
structure UserConversationRecord where
  id : Int
  user1_id : Int
  user2_id : Int
  last_message_at : Int
  last_message_content : String
deriving DecidableEq

/-- `SELECT ... FROM messages WHERE conversation_id = %s ORDER BY timestamp
DESC`: the partition's rows in clustering order `(timestamp DESC,
message_id ASC)`. -/
def selectConversationMessages (db : DB) (conversation_id : Int) : List MessageRow :=
  List.insertionSort msgLE
    (db.messages.filter fun r => r.conversation_id == conversation_id)

/-- The same select with the additional `timestamp < %s` bound of
`get_messages_before_timestamp`. -/
def selectMessagesBefore (db : DB) (conversation_id before_timestamp : Int) :
    List MessageRow :=
  List.insertionSort msgLE
    (db.messages.filter fun r =>
      r.conversation_id == conversation_id && decide (r.timestamp < before_timestamp))

/-- The row-to-record mapping applied by both message-listing reads. -/
def toMessageListItem (conversation_id : Int) (row : MessageRow) : MessageListItem :=
  { id := row.message_id
    sender_id := row.sender_id
    receiver_id := row.receiver_id
    content := row.content
    created_at := row.timestamp
    conversation_id := conversation_id }

/-- The full (pre-slicing) mapped row list fetched by
`get_conversation_messages`. -/
def fetchConversationMessages (db : DB) (conversation_id : Int) : List MessageListItem :=
  (selectConversationMessages db conversation_id).map (toMessageListItem conversation_id)

/-- The full (pre-slicing) mapped row list fetched by
`get_messages_before_timestamp`. -/
def fetchMessagesBefore (db : DB) (conversation_id before_timestamp : Int) :
    List MessageListItem :=
  (selectMessagesBefore db conversation_id before_timestamp).map
    (toMessageListItem conversation_id)

/-- `MessageModel.create_message`: allocates the next `message_id` from the
counter read (absent row read as 0), separately increments the persisted
counter, inserts the message row with the clock value `now`, then inserts a
new `user_conversations` summary row if none exists for the conversation or
updates the existing one. Returns the new state and the created message's
record. -/
def create_message (db : DB) (conversation_id sender_id receiver_id : Int)
    (content : String) (now : Int) : DB × MessageRecord :=
  let msg_id := (lookupIndex db.indexes "message_id").getD 0 + 1
  let db := { db with indexes := bumpIndex db.indexes "message_id" }
  let created_at := now
  let db :=
    { db with messages := (upsertMessage db.messages
        ⟨msg_id, conversation_id, sender_id, receiver_id, content, created_at⟩) }
  let rows := db.user_conversations.filter fun r => r.conversation_id == conversation_id
  let db :=
    if rows.isEmpty then
      { db with user_conversations := (upsertSummary db.user_conversations
          ⟨conversation_id, sender_id, receiver_id, created_at, content⟩) }
    else
      { db with user_conversations :=
          (updateSummary db.user_conversations conversation_id created_at content
            sender_id receiver_id) }
  (db, ⟨msg_id, sender_id, receiver_id, content, created_at, conversation_id⟩)

/-- `MessageModel.get_conversation_messages`: issues a `COUNT(*)` query,
binds its result, fetches the partition in clustering order, maps the rows,
then recomputes `total` as the length of the mapped list (shadowing the
count result), and slices `[(page-1)*limit : (page-1)*limit + limit]` in
memory with Python slice semantics. -/
def get_conversation_messages (db : DB) (conversation_id page limit : Int) :
    List MessageListItem × Int :=
  let count_total : Int :=
    ((db.messages.filter fun r => r.conversation_id == conversation_id).length : Int)
  let _total := count_total
  let messages := fetchConversationMessages db conversation_id
  let total : Int := messages.length
  let offset := (page - 1) * limit
  let paginated_messages := pySlice messages offset (offset + limit)
  let messages := if paginated_messages.isEmpty then [] else paginated_messages
  (messages, total)

/-- `get_conversation_messages` with the store's answer to the `COUNT(*)`
query abstracted as the parameter `cnt`; used to state that the count
query's result does not influence the function's output. -/
def get_conversation_messagesGivenCount (cnt : Int) (db : DB)
    (conversation_id page limit : Int) : List MessageListItem × Int :=
  let _total := cnt
  let messages := fetchConversationMessages db conversation_id
  let total : Int := messages.length
  let offset := (page - 1) * limit
  let paginated_messages := pySlice messages offset (offset + limit)
  let messages := if paginated_messages.isEmpty then [] else paginated_messages
  (messages, total)

/-- `MessageModel.get_messages_before_timestamp`: as
`get_conversation_messages`, with the extra strict bound
`timestamp < before_timestamp` on both the count query and the select. -/
def get_messages_before_timestamp (db : DB)
    (conversation_id before_timestamp page limit : Int) :
    List MessageListItem × Int :=
  let count_total : Int :=
    ((db.messages.filter fun r =>
        r.conversation_id == conversation_id &&
          decide (r.timestamp < before_timestamp)).length : Int)
  let _total := count_total
  let messages := fetchMessagesBefore db conversation_id before_timestamp
  let total : Int := messages.length
  let offset := (page - 1) * limit
  let paginated_messages := pySlice messages offset (offset + limit)
  let messages := if paginated_messages.isEmpty then [] else paginated_messages
  (messages, total)

/-- `get_messages_before_timestamp` with the store's answer to the
`COUNT(*)` query abstracted as the parameter `cnt`. -/
def get_messages_beforeGivenCount (cnt : Int) (db : DB)
    (conversation_id before_timestamp page limit : Int) :
    List MessageListItem × Int :=
  let _total := cnt
  let messages := fetchMessagesBefore db conversation_id before_timestamp
  let total : Int := messages.length
  let offset := (page - 1) * limit
  let paginated_messages := pySlice messages offset (offset + limit)
  let messages := if paginated_messages.isEmpty then [] else paginated_messages
  (messages, total)

/-- `ConversationModel.get_user_conversations`: two `ALLOW FILTERING` scans
of `user_conversations` (by `sender_id` and by `receiver_id`), their
concatenation, a `sorted(...)` call whose result is discarded, `total` as
the concatenation's length, and an in-memory slice of the (unsorted)
concatenation. -/
def get_user_conversations (db : DB) (user_id page limit : Int) :
    List UserConversationRecord × Int :=
  let output_list_one := db.user_conversations.filter fun r => r.sender_id == user_id
  let output_list_two := db.user_conversations.filter fun r => r.receiver_id == user_id
  let combined := output_list_one ++ output_list_two
  let _discarded_sort := List.insertionSort convLE combined
  let total : Int := combined.length
  let offset := (page - 1) * limit
  let paginated_output := pySlice combined offset (offset + limit)
  let conversations := paginated_output.map fun row =>
    ({ id := row.conversation_id
       user1_id := row.sender_id
       user2_id := row.receiver_id
       last_message_at := row.last_timestamp
       last_message_content := row.last_message } : UserConversationRecord)
  (conversations, total)

/-- `ConversationModel.create_conversation`: allocates the next
`conversation_id` from the counter read (absent row read as 0), separately
increments the persisted counter, and inserts a row into the
`conversations` identity table. No existence check is made and no
`user_conversations` row is written. -/
def create_conversation (db : DB) (sender_id receiver_id now : Int) :
    DB × CreatedConversation :=
  let conversation_id := (lookupIndex db.indexes "conversation_id").getD 0 + 1
  let db := { db with indexes := bumpIndex db.indexes "conversation_id" }
  let created_at := now
  let db :=
    { db with conversations := (upsertIdentity db.conversations
        ⟨conversation_id, sender_id, receiver_id, created_at⟩) }
  (db, ⟨conversation_id, sender_id, receiver_id, created_at⟩)

/-- `ConversationModel.get_conversation`: single-key lookup in
`user_conversations`; `none` when no row exists. -/
def get_conversation (db : DB) (conversation_id : Int) : Option ConversationRecord :=
  match db.user_conversations.filter (fun r => r.conversation_id == conversation_id) with
  | [] => none
  | result :: _ =>
    some { conversation_id := result.conversation_id
           sender_id := result.sender_id
           receiver_id := result.receiver_id
           last_message_at := result.last_timestamp
           last_message_content := some result.last_message }

/-- `ConversationModel.create_or_get_conversation`: probes the
`conversations` identity table for `(user1, user2)` and `(user2, user1)`;
on a hit returns `get_conversation` of the found id; otherwise allocates a
new conversation id from the counter, increments the counter, inserts an
identity row, and returns a zero-state record with no last message. -/
def create_or_get_conversation (db : DB) (user1_id user2_id now : Int) :
    DB × Option ConversationRecord :=
  let output_one := db.conversations.filter fun r =>
    r.sender_id == user1_id && r.receiver_id == user2_id
  let output_two := db.conversations.filter fun r =>
    r.sender_id == user2_id && r.receiver_id == user1_id
  match output_one with
  | row :: _ => (db, get_conversation db row.conversation_id)
  | [] =>
    match output_two with
    | row :: _ => (db, get_conversation db row.conversation_id)
    | [] =>
      let conversation_id := (lookupIndex db.indexes "conversation_id").getD 0 + 1
      let db := { db with indexes := bumpIndex db.indexes "conversation_id" }
      let created_at := now
      let db :=
        { db with conversations := (upsertIdentity db.conversations
            ⟨conversation_id, user1_id, user2_id, created_at⟩) }
      (db, some { conversation_id := conversation_id
                  sender_id := user1_id
                  receiver_id := user2_id
                  last_message_at := created_at
                  last_message_content := none })

/-! ### Helper lemmas about the store primitives -/

/-- Reading a counter right after its increment sees the old value
(absent read as 0) plus one. -/
theorem lookupIndex_bumpIndex_self (l : List (String × Int)) (n : String) :
    lookupIndex (bumpIndex l n) n = some ((lookupIndex l n).getD 0 + 1) := by
  induction l with
  | nil => simp [lookupIndex, bumpIndex]
  | cons p rest ih =>
    by_cases h : p.1 = n
    · simp [lookupIndex, bumpIndex, h]
    · simp [lookupIndex, bumpIndex, h, ih]

/-- When no row matches the summary's key, the upsert is an append. -/
theorem upsertSummary_of_no_match (uc : List SummaryRow) (m : SummaryRow)
    (h : uc.filter (fun r => r.conversation_id == m.conversation_id) = []) :
    upsertSummary uc m = uc ++ [m] := by
  induction uc with
  | nil => rfl
  | cons x rest ih =>
    rw [List.filter_cons] at h
    by_cases hx : x.conversation_id = m.conversation_id
    · simp [hx] at h
    · rw [if_neg (by simp [hx])] at h
      simp only [upsertSummary, if_neg hx, List.cons_append]
      rw [ih h]

/-- The field rewrite applied by `updateSummary` to each matching row. -/
def applySummaryUpdate (ts : Int) (msg : String) (s r : Int) (row : SummaryRow) :
    SummaryRow :=
  { row with last_timestamp := ts, last_message := msg, sender_id := s, receiver_id := r }

/-- `updateSummary` commutes with filtering on the updated key: the rows
selected by the key are exactly the updated images of the previously
selected rows. -/
theorem filter_updateSummary (uc : List SummaryRow) (c ts : Int) (msg : String)
    (s r : Int) :
    (updateSummary uc c ts msg s r).filter (fun row => row.conversation_id == c) =
      (uc.filter (fun row => row.conversation_id == c)).map
        (applySummaryUpdate ts msg s r) := by
  induction uc with
  | nil => rfl
  | cons x rest ih =>
    simp only [updateSummary, List.map_cons] at ih ⊢
    by_cases hx : x.conversation_id = c
    · rw [if_pos hx, List.filter_cons, List.filter_cons]
      simp [applySummaryUpdate, hx, ih]
    · rw [if_neg hx, List.filter_cons, List.filter_cons]
      simp [hx, ih]

/-- `pySlice` with nonnegative bounds `a` and `a + L` is drop-then-take. -/
theorem pySlice_nonneg {α : Type} (l : List α) (a L : Int) (ha : 0 ≤ a) (hL : 0 ≤ L) :
    pySlice l a (a + L) = (l.drop a.toNat).take L.toNat := by
  simp only [pySlice]
  rw [if_neg (by omega), if_neg (by omega)]
  rcases le_or_lt a (l.length : Int) with h | h
  · rw [min_eq_left h, List.take_eq_take]
    simp only [List.length_drop]
    omega
  · rw [min_eq_right h.le]
    have h2 : min (a + L) ((l.length : Int)) = ((l.length : Int)) := by omega
    rw [h2]
    have h3 : l.drop ((l.length : Int)).toNat = [] := by
      simp
    have h4 : l.drop a.toNat = [] := by
      apply List.drop_eq_nil_of_le
      omega
    rw [h3, h4]
    simp

/-- Any `pySlice` of a list is a sublist of it. -/
theorem pySlice_sublist {α : Type} (l : List α) (a b : Int) :
    (pySlice l a b).Sublist l := by
  unfold pySlice
  exact (List.take_sublist _ _).trans (List.drop_sublist _ _)

/-- The `paginated if paginated else []` step of the Python code is the
identity on lists. -/
theorem ifIsEmpty_eq_self {α : Type} (l : List α) :
    (if l.isEmpty then ([] : List α) else l) = l := by
  cases l <;> rfl

/-- Flattening the consecutive length-`L` chunks of a list reproduces its
prefix of length `k * L`. -/
theorem flatten_chunks {α : Type} (l : List α) (L k : Nat) :
    (((List.range k).map fun i => (l.drop (i * L)).take L).flatten) =
      l.take (k * L) := by
  induction k with
  | zero => simp
  | succ k ih =>
    rw [List.range_succ, List.map_append, List.flatten_append, ih]
    simp only [List.map_cons, List.map_nil, List.flatten_cons, List.flatten_nil,
      List.append_nil]
    rw [Nat.succ_mul, List.take_add]

/-- The two scan lengths summed equal the per-row double-membership weight
summed over the whole summary table. -/
theorem filter_lengths_as_sum (l : List SummaryRow) (u : Int) :
    (l.filter fun row => row.sender_id == u).length +
      (l.filter fun row => row.receiver_id == u).length =
      (l.map fun row =>
        (if row.sender_id = u then 1 else 0) +
          (if row.receiver_id = u then 1 else 0)).sum := by
  induction l with
  | nil => rfl
  | cons x rest ih =>
    rw [List.filter_cons, List.filter_cons, List.map_cons, List.sum_cons]
    by_cases h1 : x.sender_id = u <;> by_cases h2 : x.receiver_id = u <;>
      simp only [h1, h2, beq_self_eq_true, if_true, beq_iff_eq, if_false,
        ite_true, ite_false, List.length_cons, beq_eq_false_iff_ne, ne_eq,
        not_false_eq_true] <;> omega

/-- The page returned by `get_conversation_messages` is the raw
`[(page-1)*limit : (page-1)*limit + limit]` slice of the fetched list. -/
theorem get_conversation_messages_fst (db : DB) (c page limit : Int) :
    (get_conversation_messages db c page limit).1 =
      pySlice (fetchConversationMessages db c)
        ((page - 1) * limit) ((page - 1) * limit + limit) :=
  ifIsEmpty_eq_self _

/-- The page returned by `get_messages_before_timestamp` is the raw
`[(page-1)*limit : (page-1)*limit + limit]` slice of the fetched list. -/
theorem get_messages_before_fst (db : DB) (c t page limit : Int) :
    (get_messages_before_timestamp db c t page limit).1 =
      pySlice (fetchMessagesBefore db c t)
        ((page - 1) * limit) ((page - 1) * limit + limit) :=
  ifIsEmpty_eq_self _

/-- The fetched message list is no longer than the whole messages table. -/
theorem fetchConversationMessages_length_le (db : DB) (c : Int) :
    (fetchConversationMessages db c).length ≤ db.messages.length := by
  simp only [fetchConversationMessages, selectConversationMessages, List.length_map]
  rw [(List.perm_insertionSort msgLE _).length_eq]
  exact List.length_filter_le _ _

/-- Requesting page 1 with the whole table's length as the limit returns
the entire fetched (pre-slicing) message list. -/
theorem get_conversation_messages_full (db : DB) (c : Int) :
    (get_conversation_messages db c 1 ((db.messages.length : Int))).1 =
      fetchConversationMessages db c := by
  rw [get_conversation_messages_fst]
  have h0 : ((1 : Int) - 1) * ((db.messages.length : Int)) = 0 := by ring
  rw [h0, pySlice_nonneg _ 0 _ le_rfl (by positivity)]
  simp only [Int.toNat_zero, List.drop_zero, Int.toNat_natCast]
  exact List.take_of_length_le (fetchConversationMessages_length_le db c)

/-! ### Claim theorems -/

/-- C1. On an empty store, `create_or_get_conversation 1 2` creates
conversation 1 and returns its id, but the second call with the same pair
— although it finds the identity row and creates no second conversation
(the state is unchanged) — returns `none` instead of a record with the
same `conversation_id`: `get_conversation` reads `user_conversations`,
where the creation path never wrote a row. The same happens for the
reversed pair `(2, 1)`. -/
theorem claim1_code_bug :
    ((create_or_get_conversation emptyDB 1 2 0).2.map
        (fun q => q.conversation_id) = some 1)
    ∧ (create_or_get_conversation
        (create_or_get_conversation emptyDB 1 2 0).1 1 2 1).2 = none
    ∧ (create_or_get_conversation
        (create_or_get_conversation emptyDB 1 2 0).1 2 1 1).2 = none
    ∧ (create_or_get_conversation
          (create_or_get_conversation emptyDB 1 2 0).1 1 2 1).1 =
        (create_or_get_conversation emptyDB 1 2 0).1 := by
  decide

/-- C2 counterexample. `create_conversation` on the empty store allocates
conversation id 1 and writes the identity row, but `user_conversations`
stays empty: no bare ConversationSummary row is written for the new id,
so `get_conversation 1` still returns `none`. -/
theorem claim2_counterexample :
    (create_conversation emptyDB 1 2 0).2.conversation_id = 1
    ∧ (create_conversation emptyDB 1 2 0).1.user_conversations = []
    ∧ get_conversation (create_conversation emptyDB 1 2 0).1 1 = none := by
  decide

/-- C2 amended. `create_conversation` allocates a new id via the
`conversation_id` counter and writes a ConversationIdentity row — and
nothing else: the `user_conversations` summary table and the messages
table are untouched — without checking whether a conversation between the
pair already exists (the writes happen for every starting state); and
when neither probe of `create_or_get_conversation` finds an existing
conversation, its creation path produces exactly the same state as
`create_conversation`. -/
theorem claim2_amended :
    (∀ (db : DB) (s r now : Int),
      (create_conversation db s r now).2.conversation_id =
          (lookupIndex db.indexes "conversation_id").getD 0 + 1
      ∧ (create_conversation db s r now).1.indexes =
          bumpIndex db.indexes "conversation_id"
      ∧ (create_conversation db s r now).1.conversations =
          upsertIdentity db.conversations
            ⟨(lookupIndex db.indexes "conversation_id").getD 0 + 1, s, r, now⟩
      ∧ (create_conversation db s r now).1.user_conversations =
          db.user_conversations
      ∧ (create_conversation db s r now).1.messages = db.messages)
    ∧ ∀ (db : DB) (a b now : Int),
        db.conversations.filter
            (fun q => q.sender_id == a && q.receiver_id == b) = [] →
        db.conversations.filter
            (fun q => q.sender_id == b && q.receiver_id == a) = [] →
        (create_or_get_conversation db a b now).1 =
          (create_conversation db a b now).1 := by
  constructor
  · intro db s r now
    exact ⟨rfl, rfl, rfl, rfl, rfl⟩
  · intro db a b now h1 h2
    simp only [create_or_get_conversation, create_conversation]
    rw [h1, h2]

/-- C2 amended, witness: the miss path of `create_or_get_conversation` on
the empty store lands in the very state `create_conversation` produces. -/
theorem claim2_amended_witness :
    (create_or_get_conversation emptyDB 1 2 0).1 =
      (create_conversation emptyDB 1 2 0).1 :=
  claim2_amended.2 emptyDB 1 2 0 rfl rfl

/-- The record shape built by `get_user_conversations` from a summary row. -/
def toUserConversationRecord (row : SummaryRow) : UserConversationRecord :=
  { id := row.conversation_id
    user1_id := row.sender_id
    user2_id := row.receiver_id
    last_message_at := row.last_timestamp
    last_message_content := row.last_message }

/-- C4. The page returned by `get_user_conversations` is always the raw
`[(page-1)*limit : (page-1)*limit + limit]` slice of the concatenation of
the sender-side scan and the receiver-side scan — the invoked sort's
result is not retained — and, concretely, a store whose scans concatenate
to timestamps `[3, 5, 1]` is returned in exactly that order, which is
neither ascending nor descending by `last_timestamp`. -/
theorem claim4_concat_order_page :
    (∀ (db : DB) (u page limit : Int),
      (get_user_conversations db u page limit).1 =
        (pySlice
            ((db.user_conversations.filter fun q => q.sender_id == u) ++
              (db.user_conversations.filter fun q => q.receiver_id == u))
            ((page - 1) * limit) ((page - 1) * limit + limit)).map
          toUserConversationRecord)
    ∧ (get_user_conversations
          (⟨[], [], [⟨10, 1, 2, 3, "x"⟩, ⟨11, 1, 3, 5, "y"⟩, ⟨12, 4, 1, 1, "z"⟩], []⟩ : DB)
          1 1 20).1.map (fun q => q.last_message_at) = [3, 5, 1]
    ∧ ¬ List.Sorted (fun a b : Int => a ≤ b) [3, 5, 1]
    ∧ ¬ List.Sorted (fun a b : Int => b ≤ a) [3, 5, 1] := by
  refine ⟨fun db u page limit => rfl, by decide, by decide, by decide⟩

/-- C5. The id-allocation pattern: the returned id is the counter value
read from the pre-call state (an absent row read as 0) plus one, computed
in the caller; the separately issued increment leaves the persisted
counter at that same read-plus-one value; the first allocation on an
empty store returns 1. This holds for `create_message` (`message_id`),
`create_conversation` (`conversation_id`), and the creation path of
`create_or_get_conversation` when neither probe hits. -/
theorem claim5_id_allocation :
    (∀ (db : DB) (c s r : Int) (content : String) (now : Int),
      (create_message db c s r content now).2.message_id =
          (lookupIndex db.indexes "message_id").getD 0 + 1
      ∧ lookupIndex (create_message db c s r content now).1.indexes "message_id" =
          some ((lookupIndex db.indexes "message_id").getD 0 + 1))
    ∧ (∀ (db : DB) (s r now : Int),
      (create_conversation db s r now).2.conversation_id =
          (lookupIndex db.indexes "conversation_id").getD 0 + 1
      ∧ lookupIndex (create_conversation db s r now).1.indexes "conversation_id" =
          some ((lookupIndex db.indexes "conversation_id").getD 0 + 1))
    ∧ (create_message emptyDB 1 1 2 "hi" 0).2.message_id = 1
    ∧ (create_conversation emptyDB 1 2 0).2.conversation_id = 1
    ∧ ∀ (db : DB) (a b now : Int),
        db.conversations.filter
            (fun q => q.sender_id == a && q.receiver_id == b) = [] →
        db.conversations.filter
            (fun q => q.sender_id == b && q.receiver_id == a) = [] →
        (create_or_get_conversation db a b now).2.map (fun q => q.conversation_id) =
            some ((lookupIndex db.indexes "conversation_id").getD 0 + 1)
          ∧ lookupIndex (create_or_get_conversation db a b now).1.indexes
              "conversation_id" =
            some ((lookupIndex db.indexes "conversation_id").getD 0 + 1) := by
  refine ⟨?_, ?_, by decide, by decide, ?_⟩
  · intro db c s r content now
    refine ⟨rfl, ?_⟩
    simp only [create_message]
    split <;> exact lookupIndex_bumpIndex_self db.indexes _
  · intro db s r now
    exact ⟨rfl, lookupIndex_bumpIndex_self db.indexes _⟩
  · intro db a b now h1 h2
    simp only [create_or_get_conversation]
    rw [h1, h2]
    exact ⟨rfl, lookupIndex_bumpIndex_self db.indexes _⟩

/-- C5 witness: the allocation equations of the `create_or_get_conversation`
creation path evaluated on the empty store. -/
theorem claim5_id_allocation_witness :
    (create_or_get_conversation emptyDB 1 2 0).2.map (fun q => q.conversation_id) =
        some ((lookupIndex emptyDB.indexes "conversation_id").getD 0 + 1)
      ∧ lookupIndex (create_or_get_conversation emptyDB 1 2 0).1.indexes
          "conversation_id" =
        some ((lookupIndex emptyDB.indexes "conversation_id").getD 0 + 1) :=
  claim5_id_allocation.2.2.2.2 emptyDB 1 2 0 rfl rfl

/-- C6. For both message-listing reads the returned `total` is the length
of the fetched (pre-slicing) mapped row list, and the separately issued
`COUNT(*)` query has no influence on the result: replacing the store's
answer to it by an arbitrary value `cnt` leaves the output unchanged. -/
theorem claim6_total_recomputed (db : DB) (c t page limit cnt : Int) :
    (get_conversation_messages db c page limit).2 =
        ((fetchConversationMessages db c).length : Int)
    ∧ (get_messages_before_timestamp db c t page limit).2 =
        ((fetchMessagesBefore db c t).length : Int)
    ∧ get_conversation_messagesGivenCount cnt db c page limit =
        get_conversation_messages db c page limit
    ∧ get_messages_beforeGivenCount cnt db c t page limit =
        get_messages_before_timestamp db c t page limit :=
  ⟨rfl, rfl, rfl, rfl⟩

/-- C9. `page` and `limit` are not validated: for `page ≤ 0` (and a
nonnegative `limit`) the offset `(page-1)*limit` is negative or zero, and
both message-listing reads still return normally, applying that raw
offset to the Python slice as-is — the pass-through slice of the fetched
list — rather than raising a validation error (the embedded functions
are total). -/
theorem claim9_page_passthrough (db : DB) (c t page limit : Int)
    (hp : page ≤ 0) (hl : 0 ≤ limit) :
    (page - 1) * limit ≤ 0
    ∧ (get_conversation_messages db c page limit).1 =
        pySlice (fetchConversationMessages db c)
          ((page - 1) * limit) ((page - 1) * limit + limit)
    ∧ (get_messages_before_timestamp db c t page limit).1 =
        pySlice (fetchMessagesBefore db c t)
          ((page - 1) * limit) ((page - 1) * limit + limit) :=
  ⟨mul_nonpos_iff.mpr (Or.inr ⟨by omega, hl⟩),
    get_conversation_messages_fst db c page limit,
    get_messages_before_fst db c t page limit⟩

/-- C9 witness: the pass-through behavior at `page = 0`, `limit = 20` on
the empty store. -/
theorem claim9_page_passthrough_witness :
    ((0 : Int) - 1) * 20 ≤ 0
    ∧ (get_conversation_messages emptyDB 1 0 20).1 =
        pySlice (fetchConversationMessages emptyDB 1)
          (((0 : Int) - 1) * 20) (((0 : Int) - 1) * 20 + 20)
    ∧ (get_messages_before_timestamp emptyDB 1 5 0 20).1 =
        pySlice (fetchMessagesBefore emptyDB 1 5)
          (((0 : Int) - 1) * 20) (((0 : Int) - 1) * 20 + 20) :=
  claim9_page_passthrough emptyDB 1 5 0 20 (by decide) (by decide)

/-- C10. In `get_user_conversations u`, the returned `total` weighs every
summary row by the number of scans it matches — 2 when both `sender_id`
and `receiver_id` equal `u` (a self-conversation), 1 when exactly one
does — and concretely a lone self-conversation row is returned twice on
the page and counted twice, while a lone one-sided row is returned and
counted once. -/
theorem claim10_self_double_count :
    (∀ (db : DB) (u page limit : Int),
      (get_user_conversations db u page limit).2 =
        (((db.user_conversations.map fun q =>
            (if q.sender_id = u then 1 else 0) +
              (if q.receiver_id = u then 1 else 0)).sum : Nat) : Int))
    ∧ (get_user_conversations (⟨[], [], [⟨10, 7, 7, 3, "x"⟩], []⟩ : DB) 7 1 20).1 =
        [⟨10, 7, 7, 3, "x"⟩, ⟨10, 7, 7, 3, "x"⟩]
    ∧ (get_user_conversations (⟨[], [], [⟨10, 7, 7, 3, "x"⟩], []⟩ : DB) 7 1 20).2 = 2
    ∧ (get_user_conversations (⟨[], [], [⟨10, 7, 8, 3, "x"⟩], []⟩ : DB) 7 1 20).1 =
        [⟨10, 7, 8, 3, "x"⟩]
    ∧ (get_user_conversations (⟨[], [], [⟨10, 7, 8, 3, "x"⟩], []⟩ : DB) 7 1 20).2
        = 1 := by
  refine ⟨?_, by decide, by decide, by decide, by decide⟩
  intro db u page limit
  simp only [get_user_conversations, List.length_append]
  rw [filter_lengths_as_sum]

/-- C3. After `create_message c s r content` at clock `now`,
`get_conversation c` returns a record whose `last_message_content` is the
message's content and whose `last_message_at` is the message's timestamp
(and whose sender/receiver are the message's) — for every starting state:
the summary row is inserted when absent and its `last_timestamp`,
`last_message`, `sender_id`, `receiver_id` fields overwritten when
present. -/
theorem claim3_summary_reflects_message (db : DB) (c s r : Int) (content : String)
    (now : Int) :
    get_conversation (create_message db c s r content now).1 c =
      some ⟨c, s, r, now, some content⟩ := by
  have hmain :
      (create_message db c s r content now).1.user_conversations =
        if (db.user_conversations.filter fun q => q.conversation_id == c).isEmpty then
          upsertSummary db.user_conversations ⟨c, s, r, now, content⟩
        else updateSummary db.user_conversations c now content s r := by
    simp only [create_message]
    split
    · rfl
    · rfl
  unfold get_conversation
  rw [hmain]
  by_cases h : (db.user_conversations.filter fun q => q.conversation_id == c) = []
  · rw [if_pos (by simp [h])]
    have hup := upsertSummary_of_no_match db.user_conversations ⟨c, s, r, now, content⟩ h
    rw [hup, List.filter_append, h, List.nil_append]
    simp [List.filter]
  · rw [if_neg (by simp [h])]
    rw [filter_updateSummary]
    obtain ⟨x, xs, hx⟩ : ∃ x xs,
        (db.user_conversations.filter fun q => q.conversation_id == c) = x :: xs := by
      cases hfe : (db.user_conversations.filter fun q => q.conversation_id == c) with
      | nil => exact absurd hfe h
      | cons x xs => exact ⟨x, xs, rfl⟩
    rw [hx]
    have hxc : x.conversation_id = c := by
      have hmem : x ∈ db.user_conversations.filter fun q => q.conversation_id == c := by
        rw [hx]; exact List.mem_cons_self _ _
      simpa using (List.mem_filter.mp hmem).2
    simp [applySummaryUpdate, hxc]

/-- C7. Every message on any page of `get_messages_before_timestamp c t`
has `created_at` strictly below `t` and belongs to the full message set
returned by `get_conversation_messages c` (page 1 with the whole table's
length as the limit); in particular no returned message has timestamp at
or above `t`. -/
theorem claim7_before_subset (db : DB) (c t page limit : Int) (m : MessageListItem)
    (hm : m ∈ (get_messages_before_timestamp db c t page limit).1) :
    m.created_at < t
    ∧ m ∈ (get_conversation_messages db c 1 ((db.messages.length : Int))).1 := by
  rw [get_messages_before_fst] at hm
  have hm2 : m ∈ fetchMessagesBefore db c t :=
    (pySlice_sublist _ _ _).subset hm
  simp only [fetchMessagesBefore, List.mem_map] at hm2
  obtain ⟨row, hrow, rfl⟩ := hm2
  have hrow2 : row ∈ db.messages.filter fun q =>
      q.conversation_id == c && decide (q.timestamp < t) := by
    simpa only [selectMessagesBefore,
      (List.perm_insertionSort msgLE _).mem_iff] using hrow
  obtain ⟨hrowmem, hrowpred⟩ := List.mem_filter.mp hrow2
  simp only [Bool.and_eq_true, beq_iff_eq, decide_eq_true_eq] at hrowpred
  refine ⟨hrowpred.2, ?_⟩
  rw [get_conversation_messages_full]
  simp only [fetchConversationMessages, List.mem_map]
  refine ⟨row, ?_, rfl⟩
  rw [selectConversationMessages, (List.perm_insertionSort msgLE _).mem_iff]
  exact List.mem_filter.mpr ⟨hrowmem, by simp [hrowpred.1]⟩

/-- C7 witness: a store holding one message (timestamp 0) in conversation
5; the page of `get_messages_before_timestamp` at bound 1 contains it, so
the conclusions evaluate at that concrete instance. -/
theorem claim7_before_subset_witness :
    (⟨1, 1, 2, "a", 0, 5⟩ : MessageListItem).created_at < 1
    ∧ (⟨1, 1, 2, "a", 0, 5⟩ : MessageListItem) ∈
        (get_conversation_messages (create_message emptyDB 5 1 2 "a" 0).1 5 1
          (((create_message emptyDB 5 1 2 "a" 0).1.messages.length : Int))).1 :=
  claim7_before_subset (create_message emptyDB 5 1 2 "a" 0).1 5 1 1 20 _ (by decide)

/-- C8. The store returns each conversation's rows in its clustering
order (timestamp descending, modelled in the select): every page of
`get_conversation_messages` is sorted by `created_at` descending, and for
any page size `L > 0`, concatenating the pages `1, 2, …, k` (with
`k * L` covering the fetched total) reconstructs the full per-conversation
message list exactly — no duplicates, no omissions. -/
theorem claim8_pages_tile (db : DB) (c : Int) :
    (∀ page limit : Int,
      List.Pairwise (fun a b : MessageListItem => b.created_at ≤ a.created_at)
        (get_conversation_messages db c page limit).1)
    ∧ ∀ L k : Nat, 0 < L →
        (fetchConversationMessages db c).length ≤ k * L →
        (((List.range k).map fun (i : Nat) =>
            (get_conversation_messages db c ((i : Int) + 1) ((L : Nat) : Int)).1).flatten) =
          fetchConversationMessages db c := by
  have hsorted : List.Pairwise
      (fun a b : MessageListItem => b.created_at ≤ a.created_at)
      (fetchConversationMessages db c) := by
    rw [fetchConversationMessages, List.pairwise_map]
    apply List.Pairwise.imp ?_ (List.sorted_insertionSort msgLE _)
    intro a b hab
    unfold msgLE at hab
    simp only [toMessageListItem]
    omega
  constructor
  · intro page limit
    rw [get_conversation_messages_fst]
    exact List.Pairwise.sublist (pySlice_sublist _ _ _) hsorted
  · intro L k hL hcov
    have hpage : ∀ i : Nat,
        (get_conversation_messages db c ((i : Int) + 1) ((L : Nat) : Int)).1 =
          ((fetchConversationMessages db c).drop (i * L)).take L := by
      intro i
      rw [get_conversation_messages_fst]
      have harg : ((i : Int) + 1 - 1) * ((L : Nat) : Int) = ((i * L : Nat) : Int) := by
        push_cast; ring
      rw [harg, pySlice_nonneg _ _ _ (by positivity) (by positivity)]
      rw [Int.toNat_natCast, Int.toNat_natCast]
    calc (((List.range k).map fun (i : Nat) =>
            (get_conversation_messages db c ((i : Int) + 1) ((L : Nat) : Int)).1).flatten)
        = (((List.range k).map fun i =>
            ((fetchConversationMessages db c).drop (i * L)).take L).flatten) := by
          congr 1
          exact List.map_congr_left fun i _ => hpage i
      _ = (fetchConversationMessages db c).take (k * L) := flatten_chunks _ L k
      _ = fetchConversationMessages db c := List.take_of_length_le hcov

/-- C8 witness: a two-message conversation tiled by pages of size 1
(`k = 2`): the two singleton pages concatenate to the full fetched list. -/
theorem claim8_pages_tile_witness :
    (((List.range 2).map fun (i : Nat) =>
        (get_conversation_messages
          (⟨[], [⟨1, 1, 1, 2, "a", 0⟩, ⟨2, 1, 2, 1, "b", 5⟩], [], []⟩ : DB) 1
          ((i : Int) + 1) ((1 : Nat) : Int)).1).flatten) =
      fetchConversationMessages
        (⟨[], [⟨1, 1, 1, 2, "a", 0⟩, ⟨2, 1, 2, 1, "b", 5⟩], [], []⟩ : DB) 1 :=
  (claim8_pages_tile _ 1).2 1 2 (by decide) (by decide)
